import Mathlib

/-!
# Verification of the `sandbox_api` mail-delivery subsystem

Shallow embedding of the Go package `internal/mailer` of the repository
`sudo-which-qp/sandbox_api`:

* the Transport layer: `SmtpMailer.Send` (two source variants: the plain
  one in `internal/mailer/smtp.go`, and the retry/TLS one), and
  `HttpMailer.SendWithOptions` / `HttpMailer.sendHTTPRequest` in
  `internal/mailer/plunk_mailer.go`;
* the in-memory queue + worker pool: `InMemoryMailer` in
  `internal/mailer/smtp_inmemory.go` and `HttpInMemoryMailer` in
  `internal/mailer/http_inmemory.go`;
* the façade `Send` / `SendWithOptions` on the in-memory mailers.

Go `error` values are modelled as `Except String`, the template engine and
the network as explicit oracles (the outcome of parsing / executing a
template, and the outcome of each network attempt), and time is dropped:
a `time.Sleep(retryDelay)` is recorded as one tick in a `sleeps` counter,
and the 100 ms enqueue wait window as a boolean "the push could complete
within the window".
-/

namespace Mailer

/-! ## Template-engine oracle

`text/template`: parsing may fail; executing the `"body"` block and the
`"subject"` block may each fail.  A parsed template is the pair of those
two execution outcomes for the given data bag. -/

/-- Outcome of executing the two named blocks of a parsed template against
the call's data.  `body`/`subject` are `.ok rendered` or `.error msg`,
mirroring `t.ExecuteTemplate(&buf, "body"/"subject", data)`. -/
structure Tmpl where
  body : Except String String
  subject : Except String String
deriving Repr

/-- Outcome of `template.ParseFS(FS, templatePath)`: either a parsed
template or a parse error. -/
def TmplParse : Type := Except String Tmpl

/-! ## Network oracle

One delivery primitive invocation (one `sendHTTPRequest` call, one
`sendMailWithTLS` call, or the single `smtp.SendMail` call) is abstracted
as the outcome of the n-th attempt: `none` = success, `some msg` =
failure with error message `msg`.  Attempts are numbered from 1, as in
the Go loops. -/

def Net : Type := Nat → Option String

/-- Result of one full transport-level send: the returned error (if any),
the message subject actually used (`none` when the call failed before
subject derivation), the number of network-primitive invocations made,
and the number of `retryDelay` sleeps performed. -/
structure SendOut where
  result : Except String Unit
  subjectUsed : Option String
  attempts : Nat
  sleeps : Nat
deriving Repr

/-! ## Subject derivation

Identical in all three transport sources
(`smtp.go` 61-70, `plunk_mailer.go` 84-93, retry-SMTP variant 70-79):

```go
if subject == "" {
    var subjectBuf bytes.Buffer
    if err := t.ExecuteTemplate(&subjectBuf, "subject", data); err == nil {
        subject = strings.TrimSpace(subjectBuf.String())
    } else {
        subject = fmt.Sprintf("Message for %s", username)
    }
}
```
-/

/-- Subject actually placed in the outgoing message. -/
def deriveSubject (t : Tmpl) (username subject : String) : String :=
  if subject = "" then
    match t.subject with
    | .ok s => s.trim
    | .error _ => "Message for " ++ username
  else subject

/-! ## The retry loop

`plunk_mailer.go` 112-132 and the retry-SMTP variant 106-128 contain the
same loop:

```go
var lastErr error
for attempt := 1; attempt <= maxRetries; attempt++ {
    err := <primitive>
    if err == nil { return nil }
    lastErr = err
    if attempt < maxRetries { time.Sleep(retryDelay) }
}
return fmt.Errorf("... after %d attempts: %w", maxRetries, lastErr)
```

`retryLoopAux net maxRetries fuel attempt lastErr` runs the loop from
iteration `attempt` on; `retryLoop` is the initial call with
`attempt = 1` and `lastErr = ""` (Go's `nil` `error`). -/

/-- The Go retry loop from iteration `attempt` with accumulator `lastErr`;
`fuel` is the number of loop iterations still to run
(`maxRetries - attempt + 1`), which makes the recursion structural.
Returns (outcome, primitive invocations made, sleeps performed); the
outcome is `.error lastErr` when the loop exhausts its attempts
(the caller wraps it into its aggregate message). -/
def retryLoopAux (net : Net) (maxRetries : Nat) :
    Nat → Nat → String → Except String Unit × Nat × Nat
  | 0, _, lastErr => (.error lastErr, 0, 0)
  | fuel + 1, attempt, _lastErr =>
    match net attempt with
    | none => (.ok (), 1, 0)
    | some e =>
      if attempt < maxRetries then
        let rest := retryLoopAux net maxRetries fuel (attempt + 1) e
        (rest.1, rest.2.1 + 1, rest.2.2 + 1)
      else
        (.error e, 1, 0)

/-- The Go retry loop, started at `attempt = 1` with `lastErr = nil`
(modelled as `""`). -/
def retryLoop (net : Net) (maxRetries : Nat) : Except String Unit × Nat × Nat :=
  retryLoopAux net maxRetries maxRetries 1 ""

/-! ## `HttpMailer` (`plunk_mailer.go`) -/

/-- Configuration of `HttpMailer` (`plunk_mailer.go` 17-25). `retryDelay`
and the HTTP client timeout are kept as opaque tick counts. -/
structure HttpMailer where
  apiKey : String
  apiURL : String
  mailFromAddress : String
  mailFromName : String
  maxRetries : Nat
  retryDelay : Nat
deriving Repr, DecidableEq

/-- `NewHttpMailer` (`plunk_mailer.go` 45-61): `maxRetries = 3`,
`retryDelay = 5s` (one unit here = 1 s). -/
def NewHttpMailer (apiKey mailFromAddress mailFromName : String) : HttpMailer :=
  { apiKey := apiKey
    apiURL := "https://api.useplunk.com/v1/send"
    mailFromAddress := mailFromAddress
    mailFromName := mailFromName
    maxRetries := 3
    retryDelay := 5 }

/-- `HttpMailer.SendWithOptions` (`plunk_mailer.go` 68-133): parse the
template, render `"body"` (each failure returns at once), derive the
subject, short-circuit on sandbox, otherwise run the retry loop around
`sendHTTPRequest` and wrap exhaustion in the aggregate error. -/
def HttpMailer.SendWithOptions (m : HttpMailer) (tp : TmplParse)
    (username subject : String) (isSandBox : Bool) (net : Net) : SendOut :=
  match tp with
  | .error e =>
    { result := .error ("error parsing template from FS: " ++ e)
      subjectUsed := none, attempts := 0, sleeps := 0 }
  | .ok t =>
    match t.body with
    | .error e =>
      { result := .error ("error executing template: " ++ e)
        subjectUsed := none, attempts := 0, sleeps := 0 }
    | .ok _ =>
      let subj := deriveSubject t username subject
      if isSandBox then
        { result := .ok (), subjectUsed := some subj, attempts := 0, sleeps := 0 }
      else
        let r := retryLoop net m.maxRetries
        { result :=
            match r.1 with
            | .ok _ => .ok ()
            | .error e =>
              .error ("failed to send email via HTTP after " ++
                      toString m.maxRetries ++ " attempts: " ++ e)
          subjectUsed := some subj
          attempts := r.2.1
          sleeps := r.2.2 }

/-! ## `SmtpMailer`, retry/TLS variant

The repository's second `SmtpMailer.Send` (the file with
`sendMailWithTLS`): identical rendering / subject / sandbox prologue,
then the same retry loop around `sendMailWithTLS`, aggregate error
`"failed to send email after %d attempts: %w"`. -/

/-- Configuration of the retry/TLS `SmtpMailer` variant. -/
structure SmtpRetryMailer where
  mailHost : String
  mailPort : String
  mailUsername : String
  mailPassword : String
  mailEncryption : String
  mailFromAddress : String
  mailFromName : String
  maxRetries : Nat
  retryDelay : Nat
deriving Repr, DecidableEq

/-- `NewSendSMTP` of the retry/TLS variant: `maxRetries = 3`,
`retryDelay = 5s`. -/
def NewSendSMTPRetry (mailHost mailPort mailUsername mailPassword
    mailEncryption mailFromAddress mailFromName : String) : SmtpRetryMailer :=
  { mailHost := mailHost, mailPort := mailPort
    mailUsername := mailUsername, mailPassword := mailPassword
    mailEncryption := mailEncryption
    mailFromAddress := mailFromAddress, mailFromName := mailFromName
    maxRetries := 3, retryDelay := 5 }

/-- `SmtpMailer.Send`, retry/TLS variant (lines 49-128 of that file). -/
def SmtpRetryMailer.Send (m : SmtpRetryMailer) (tp : TmplParse)
    (username subject : String) (isSandBox : Bool) (net : Net) : SendOut :=
  match tp with
  | .error e =>
    { result := .error ("error parsing template from FS: " ++ e)
      subjectUsed := none, attempts := 0, sleeps := 0 }
  | .ok t =>
    match t.body with
    | .error e =>
      { result := .error ("error executing template: " ++ e)
        subjectUsed := none, attempts := 0, sleeps := 0 }
    | .ok _ =>
      let subj := deriveSubject t username subject
      if isSandBox then
        { result := .ok (), subjectUsed := some subj, attempts := 0, sleeps := 0 }
      else
        let r := retryLoop net m.maxRetries
        { result :=
            match r.1 with
            | .ok _ => .ok ()
            | .error e =>
              .error ("failed to send email after " ++
                      toString m.maxRetries ++ " attempts: " ++ e)
          subjectUsed := some subj
          attempts := r.2.1
          sleeps := r.2.2 }

/-! ## `SmtpMailer` (`internal/mailer/smtp.go`)

This variant has no `maxRetries` / `retryDelay` fields and no loop: after
the same prologue it calls `smtp.SendMail` exactly once (lines 94-111)
and wraps a failure as `"failed to send email: %w"`. -/

/-- Configuration of the plain `SmtpMailer` (`smtp.go` 13-21): no retry
tunables exist. -/
structure SmtpMailer where
  mailHost : String
  mailPort : String
  mailUsername : String
  mailPassword : String
  mailEncryption : String
  mailFromAddress : String
  mailFromName : String
deriving Repr, DecidableEq

/-- `NewSendSMTP` (`smtp.go` 23-40). -/
def NewSendSMTP (mailHost mailPort mailUsername mailPassword
    mailEncryption mailFromAddress mailFromName : String) : SmtpMailer :=
  { mailHost := mailHost, mailPort := mailPort
    mailUsername := mailUsername, mailPassword := mailPassword
    mailEncryption := mailEncryption
    mailFromAddress := mailFromAddress, mailFromName := mailFromName }

/-- `SmtpMailer.Send` (`smtp.go` 42-112): one `smtp.SendMail` call, no
retry, no sleep. -/
def SmtpMailer.Send (_m : SmtpMailer) (tp : TmplParse)
    (username subject : String) (isSandBox : Bool) (net : Net) : SendOut :=
  match tp with
  | .error e =>
    { result := .error ("error parsing template from FS: " ++ e)
      subjectUsed := none, attempts := 0, sleeps := 0 }
  | .ok t =>
    match t.body with
    | .error e =>
      { result := .error ("error executing template: " ++ e)
        subjectUsed := none, attempts := 0, sleeps := 0 }
    | .ok _ =>
      let subj := deriveSubject t username subject
      if isSandBox then
        { result := .ok (), subjectUsed := some subj, attempts := 0, sleeps := 0 }
      else
        match net 1 with
        | none =>
          { result := .ok (), subjectUsed := some subj, attempts := 1, sleeps := 0 }
        | some e =>
          { result := .error ("failed to send email: " ++ e)
            subjectUsed := some subj, attempts := 1, sleeps := 0 }

/-! ## `HttpMailer.sendHTTPRequest`: response handling

`plunk_mailer.go` 160-194, after `httpClient.Do` returned a response and
`io.ReadAll` read its body:

```go
var plunkResp PlunkResponse
if err := json.Unmarshal(body, &plunkResp); err != nil {
    if resp.StatusCode >= 200 && resp.StatusCode < 300 { return nil }
    return fmt.Errorf("failed to parse response (status: %d): %w, body: %s", ...)
}
if resp.StatusCode >= 200 && resp.StatusCode < 300 && plunkResp.Success { return nil }
errorMsg := plunkResp.Error
if errorMsg == "" { errorMsg = plunkResp.Message }
if errorMsg == "" { errorMsg = fmt.Sprintf("HTTP %d: %s", resp.StatusCode, string(body)) }
return fmt.Errorf("API request failed: %s", errorMsg)
```
-/

/-- `PlunkResponse` (`plunk_mailer.go` 36-42): the provider's JSON
response shape. -/
structure PlunkResponse where
  success : Bool
  timestamp : String
  emails : String
  message : String
  error : String
deriving Repr, DecidableEq

/-- Response handling of `HttpMailer.sendHTTPRequest`
(`plunk_mailer.go` 160-194).  `status` is `resp.StatusCode`, `body` the
raw response body, `parsed` the outcome of `json.Unmarshal` on it. -/
def handleResponse (status : Nat) (body : String)
    (parsed : Except String PlunkResponse) : Except String Unit :=
  match parsed with
  | .error e =>
    if 200 ≤ status ∧ status < 300 then .ok ()
    else .error ("failed to parse response (status: " ++ toString status ++
                 "): " ++ e ++ ", body: " ++ body)
  | .ok p =>
    if (200 ≤ status ∧ status < 300) ∧ p.success then .ok ()
    else
      let errorMsg0 := p.error
      let errorMsg1 := if errorMsg0 = "" then p.message else errorMsg0
      let errorMsg2 :=
        if errorMsg1 = "" then "HTTP " ++ toString status ++ ": " ++ body
        else errorMsg1
      .error ("API request failed: " ++ errorMsg2)

/-! ## Data model of the queue (`mailer.go`) -/

/-- Delivery-mode constants (`mailer.go` 8-15). -/
def SyncDelivery : String := "sync"

/-- `AsyncInMemory` delivery-mode constant (`mailer.go`). -/
def AsyncInMemory : String := "async_memory"

/-- `AsyncPersistent` delivery-mode constant (`mailer.go`). -/
def AsyncPersistent : String := "async_db"

/-- `MailJob` (`mailer.go` 34-46).  The `any` payload `Data` is modelled
as an opaque `String`. -/
structure MailJob where
  ID : String
  TemplateFile : String
  Username : String
  Email : String
  Subject : String
  Data : String
  IsSandbox : Bool
  Status : String
  Attempts : Int
  CreatedAt : String
  UpdatedAt : String
deriving Repr, DecidableEq

/-- The job literal built by `InMemoryMailer.Send` /
`HttpInMemoryMailer.Send` (smtp_inmemory.go 45-52, http_inmemory.go
44-51): only the six listed fields are set, the rest are Go zero
values. -/
def mkMailJob (templateFile username email subject data : String)
    (isSandBox : Bool) : MailJob :=
  { ID := "", TemplateFile := templateFile, Username := username
    Email := email, Subject := subject, Data := data
    IsSandbox := isSandBox, Status := "", Attempts := 0
    CreatedAt := "", UpdatedAt := "" }

/-- The errors a façade call can return: the two queue rejection errors
(`ErrQueueNotRunning`, `ErrQueueFull` of `mailer.go` 27-30) or, on the
synchronous path, the Transport's own delivery error. -/
inductive MailerErr where
  | ErrQueueNotRunning
  | ErrQueueFull
  | deliveryFailure (msg : String)
deriving Repr, DecidableEq

/-! ## `InMemoryMailer` (`smtp_inmemory.go`)

State relevant to the sequential contract of `Enqueue` / `Send` /
`SendWithOptions`: the running flag and the channel buffer (a bounded
FIFO).  The `select`/`time.After(100ms)` in `Enqueue` is modelled by a
boolean oracle `recvWithinWindow`: when the buffer is full, whether some
worker's receive lets the push complete within the 100 ms window. -/

/-- `InMemoryMailer` (`smtp_inmemory.go` 10-18); `queueCap` is the fixed
channel capacity, `buffer` its current content. -/
structure InMemoryMailer where
  baseMailer : SmtpMailer
  queueCap : Int
  workerCount : Int
  running : Bool
  buffer : List MailJob
deriving Repr, DecidableEq

/-- `NewInMemoryMailer` (`smtp_inmemory.go` 21-41): `workerCount <= 0`
defaults to 2, `queueSize <= 0` defaults to 100. -/
def NewInMemoryMailer (baseMailer : SmtpMailer) (workerCount queueSize : Int) :
    InMemoryMailer :=
  let wc := if workerCount ≤ 0 then 2 else workerCount
  let qs := if queueSize ≤ 0 then 100 else queueSize
  { baseMailer := baseMailer, queueCap := qs, workerCount := wc
    running := false, buffer := [] }

/-- `InMemoryMailer.Enqueue` (`smtp_inmemory.go` 70-91): under the mutex,
fail with `ErrQueueNotRunning` if not running; otherwise push with the
100 ms window: immediate success if the buffer has room, success if a
worker receives within the window, else `ErrQueueFull`.  Returns the new
buffer on success. -/
def InMemoryMailer.Enqueue (m : InMemoryMailer) (job : MailJob)
    (recvWithinWindow : Bool) : Except MailerErr (List MailJob) :=
  if m.running = false then .error .ErrQueueNotRunning
  else if (m.buffer.length : Int) < m.queueCap then .ok (m.buffer ++ [job])
  else if recvWithinWindow then .ok m.buffer
  else .error .ErrQueueFull

/-- `InMemoryMailer.Send` (`smtp_inmemory.go` 44-56): always builds a
job and enqueues it. -/
def InMemoryMailer.Send (m : InMemoryMailer)
    (templateFile username email subject data : String) (isSandBox : Bool)
    (recvWithinWindow : Bool) : Except MailerErr (List MailJob) :=
  m.Enqueue (mkMailJob templateFile username email subject data isSandBox)
    recvWithinWindow

/-- `InMemoryMailer.SendWithOptions` (`smtp_inmemory.go` 59-67):
`deliveryMode == SyncDelivery` calls `baseMailer.Send` directly (the
queue untouched — `.ok m.buffer`), anything else goes through `Send`,
i.e. `Enqueue`.  `tp`/`net` are the template/network oracles consumed
only on the synchronous path. -/
def InMemoryMailer.SendWithOptions (m : InMemoryMailer)
    (tp : TmplParse) (net : Net)
    (templateFile username email subject data : String)
    (deliveryMode : String) (isSandBox : Bool) (recvWithinWindow : Bool) :
    Except MailerErr (List MailJob) :=
  if deliveryMode = SyncDelivery then
    match (m.baseMailer.Send tp username subject isSandBox net).result with
    | .ok _ => .ok m.buffer
    | .error e => .error (.deliveryFailure e)
  else
    m.Send templateFile username email subject data isSandBox recvWithinWindow

/-! ## `HttpInMemoryMailer` (`http_inmemory.go`)

Same queue/pool logic with an `HttpMailer` base.  Its synchronous path
calls `baseMailer.Send`, which is
`SendWithOptions(..., SyncDelivery, ...)` (`plunk_mailer.go` 64-66). -/

/-- `HttpInMemoryMailer` (`http_inmemory.go` 9-17). -/
structure HttpInMemoryMailer where
  baseMailer : HttpMailer
  queueCap : Int
  workerCount : Int
  running : Bool
  buffer : List MailJob
deriving Repr, DecidableEq

/-- `NewHttpInMemoryMailer` (`http_inmemory.go` 20-40): same defaulting
as `NewInMemoryMailer`. -/
def NewHttpInMemoryMailer (baseMailer : HttpMailer)
    (workerCount queueSize : Int) : HttpInMemoryMailer :=
  let wc := if workerCount ≤ 0 then 2 else workerCount
  let qs := if queueSize ≤ 0 then 100 else queueSize
  { baseMailer := baseMailer, queueCap := qs, workerCount := wc
    running := false, buffer := [] }

/-- `HttpInMemoryMailer.Enqueue` (`http_inmemory.go` 69-89): identical
to `InMemoryMailer.Enqueue`. -/
def HttpInMemoryMailer.Enqueue (m : HttpInMemoryMailer) (job : MailJob)
    (recvWithinWindow : Bool) : Except MailerErr (List MailJob) :=
  if m.running = false then .error .ErrQueueNotRunning
  else if (m.buffer.length : Int) < m.queueCap then .ok (m.buffer ++ [job])
  else if recvWithinWindow then .ok m.buffer
  else .error .ErrQueueFull

/-- `HttpInMemoryMailer.Send` (`http_inmemory.go` 43-55). -/
def HttpInMemoryMailer.Send (m : HttpInMemoryMailer)
    (templateFile username email subject data : String) (isSandBox : Bool)
    (recvWithinWindow : Bool) : Except MailerErr (List MailJob) :=
  m.Enqueue (mkMailJob templateFile username email subject data isSandBox)
    recvWithinWindow

/-- `HttpInMemoryMailer.SendWithOptions` (`http_inmemory.go` 58-66). -/
def HttpInMemoryMailer.SendWithOptions (m : HttpInMemoryMailer)
    (tp : TmplParse) (net : Net)
    (templateFile username email subject data : String)
    (deliveryMode : String) (isSandBox : Bool) (recvWithinWindow : Bool) :
    Except MailerErr (List MailJob) :=
  if deliveryMode = SyncDelivery then
    match (m.baseMailer.SendWithOptions tp username subject isSandBox net).result with
    | .ok _ => .ok m.buffer
    | .error e => .error (.deliveryFailure e)
  else
    m.Send templateFile username email subject data isSandBox recvWithinWindow

/-! ## The worker loop, per-job behaviour

`InMemoryMailer.worker` (`smtp_inmemory.go` 127-159) and
`HttpInMemoryMailer.worker` (`http_inmemory.go` 125-157):

```go
for job := range m.queue {
    err := m.baseMailer.Send(...)
    ... // record processingTime
    if err != nil { log.Printf(...); continue }
    log.Printf(...)
}
```

`workerRun base jobs` is the worker's fold over the sequence of jobs its
`range` receives (the channel's items until it is closed and drained);
`base` abstracts `baseMailer.Send` restricted to its returned error.
The mutex-protected `processingTime` write (observability only in the
sequential view — but see the `Pool` model below for its interaction
with `Stop`) is dropped here. -/

/-- The worker loop body, job by job: a failing `Send` is logged and the
loop continues with the next job; the loop ends exactly when the job
sequence is exhausted. -/
def workerRun (base : MailJob → Except String Unit) :
    List MailJob → List (MailJob × Except String Unit)
  | [] => []
  | job :: rest =>
    match base job with
    | .error e => (job, .error e) :: workerRun base rest
    | .ok _ => (job, .ok ()) :: workerRun base rest

/-! ## Interleaving model of `Stop` versus the workers

`InMemoryMailer.Stop` (`smtp_inmemory.go` 112-124):

```go
m.mu.Lock()
defer m.mu.Unlock()
if !m.running { return }
m.running = false
close(m.queue)
m.wg.Wait()
```

The deferred unlock runs only after `wg.Wait()` returns, so `Stop` holds
`m.mu` for the whole drain.  Each worker, per job, after
`baseMailer.Send` returns, executes (`smtp_inmemory.go` 145-148)

```go
m.mu.Lock()
m.processingTime = processingTime
m.mu.Unlock()
```

so finishing a job requires `m.mu`.  The small-step system below has one
state of the pool shared by the stopping thread and the workers; worker
threads are represented by how many sit in each phase of the loop
(blocked receiving, inside `Send`, blocked at `m.mu.Lock()`, exited).
Producers are absent: the modelled scenario is `Stop` racing the drain,
no concurrent `Enqueue`. -/

/-- Phase of the thread executing `Stop`: it has been called and is
acquiring `m.mu`; it holds `m.mu`, has set `running = false`, closed the
channel and sits in `wg.Wait()`; or it has returned (deferred unlock
done). -/
inductive StopPhase where
  | called
  | waiting
  | returned
deriving Repr, DecidableEq

/-- Shared state of the pool during `Stop`.  `idleW` counts workers
blocked on channel receive, `busyW` lists the job each in-`Send` worker
holds, `lockW` the job of each worker blocked at the
`m.mu.Lock()` that guards the `processingTime` write, `exitedW` the
workers whose `range` loop ended (their `wg.Done` ran). -/
structure PoolState where
  running : Bool
  closed : Bool
  buffer : List MailJob
  idleW : Nat
  busyW : List MailJob
  lockW : List MailJob
  exitedW : Nat
  processed : List MailJob
  stop : StopPhase
  mutexFree : Bool
deriving Repr, DecidableEq

/-- One interleaving step of the pool.  Channel semantics: a receive on a
closed channel still yields buffered items; the `range` loop of a worker
ends only on a closed *and* drained channel. -/
inductive PoolStep : PoolState → PoolState → Prop where
  | stopLock (s : PoolState) (h1 : s.stop = .called) (h2 : s.mutexFree = true)
      (h3 : s.running = true) :
      PoolStep s { s with running := false, closed := true,
                          stop := .waiting, mutexFree := false }
  | stopNoop (s : PoolState) (h1 : s.stop = .called) (h2 : s.mutexFree = true)
      (h3 : s.running = false) :
      PoolStep s { s with stop := .returned }
  | take (s : PoolState) (j : MailJob) (rest : List MailJob)
      (h1 : s.buffer = j :: rest) (h2 : 1 ≤ s.idleW) :
      PoolStep s { s with buffer := rest, idleW := s.idleW - 1,
                          busyW := j :: s.busyW }
  | sendDone (s : PoolState) (j : MailJob) (h : j ∈ s.busyW) :
      PoolStep s { s with busyW := s.busyW.erase j, lockW := j :: s.lockW }
  | record (s : PoolState) (j : MailJob) (h1 : j ∈ s.lockW)
      (h2 : s.mutexFree = true) :
      PoolStep s { s with lockW := s.lockW.erase j,
                          processed := s.processed ++ [j], idleW := s.idleW + 1 }
  | exitLoop (s : PoolState) (h1 : 1 ≤ s.idleW) (h2 : s.closed = true)
      (h3 : s.buffer = []) :
      PoolStep s { s with idleW := s.idleW - 1, exitedW := s.exitedW + 1 }
  | stopReturn (s : PoolState) (h1 : s.stop = .waiting) (h2 : s.idleW = 0)
      (h3 : s.busyW = []) (h4 : s.lockW = []) :
      PoolStep s { s with stop := .returned, mutexFree := true }

/-- Reachability in the pool model. -/
def PoolReach : PoolState → PoolState → Prop :=
  Relation.ReflTransGen PoolStep

/-- A concrete queued job for the `Stop` scenario. -/
def someJob : MailJob :=
  mkMailJob "welcome_mail.tmpl" "ada" "ada@example.com" "" "{}" false

/-- The claim's scenario: the pool is running with one worker (blocked
receiving) and one job still in the buffer, and `Stop` has just been
called. -/
def stopCalledState : PoolState :=
  { running := true, closed := false, buffer := [someJob], idleW := 1
    busyW := [], lockW := [], exitedW := 0, processed := []
    stop := .called, mutexFree := true }

/-- The state right after `Stop` wins the race for `m.mu`: running flag
cleared, channel closed, `Stop` inside `wg.Wait()` holding the mutex,
the job still buffered. -/
def stopWaitingState : PoolState :=
  { running := false, closed := true, buffer := [someJob], idleW := 1
    busyW := [], lockW := [], exitedW := 0, processed := []
    stop := .waiting, mutexFree := false }

/-- Deadlock invariant: `Stop` sits in `wg.Wait()` holding the mutex,
the single worker is accounted for, nothing has been processed, and
there is always a job not yet processed (buffered with no worker exited,
in `Send`, or stuck at the lock). -/
def DeadInv (s : PoolState) : Prop :=
  s.stop = .waiting ∧ s.mutexFree = false ∧
  s.idleW + s.busyW.length + s.lockW.length + s.exitedW = 1 ∧
  s.processed = [] ∧
  (s.buffer ≠ [] ∧ s.exitedW = 0 ∨ s.busyW ≠ [] ∨ s.lockW ≠ [])

/-! ## Concrete fixtures used to evaluate the model -/

/-- A network that refuses the first attempt and succeeds afterwards. -/
def failOnceNet : Net :=
  fun n => if n = 1 then some "connection refused" else none

/-- A network that refuses every attempt. -/
def alwaysFailNet : Net :=
  fun _ => some "connection refused"

/-- A parsed template with a body block and no subject block. -/
def bodyOnlyTmpl : Tmpl :=
  { body := .ok "<h1>Welcome</h1>", subject := .error "no subject block" }

/-- A parsed template with a body block and a subject block whose
rendering carries surrounding whitespace. -/
def subjTmpl : Tmpl :=
  { body := .ok "<h1>Welcome</h1>", subject := .ok "  Welcome to Sandbox  " }

/-- A concrete `HttpMailer` as built by `NewHttpMailer`. -/
def httpM : HttpMailer :=
  NewHttpMailer "plunk-key" "noreply@example.com" "Sandbox"

/-- A concrete retry/TLS `SmtpMailer` as built by its `NewSendSMTP`. -/
def smtpRetryM : SmtpRetryMailer :=
  NewSendSMTPRetry "smtp.example.com" "587" "user" "pass" "tls"
    "noreply@example.com" "Sandbox"

/-- A concrete plain `SmtpMailer` as built by `NewSendSMTP` of
`internal/mailer/smtp.go`. -/
def smtpPlainM : SmtpMailer :=
  NewSendSMTP "smtp.example.com" "587" "user" "pass" "tls"
    "noreply@example.com" "Sandbox"

/-- A never-started (or already stopped) SMTP-backed queue. -/
def stoppedQueueM : InMemoryMailer :=
  { baseMailer := smtpPlainM, queueCap := 2, workerCount := 2
    running := false, buffer := [] }

/-- A running SMTP-backed queue with room in the buffer. -/
def runningQueueM : InMemoryMailer :=
  { baseMailer := smtpPlainM, queueCap := 2, workerCount := 2
    running := true, buffer := [] }

/-- A running SMTP-backed queue whose buffer is at capacity. -/
def fullQueueM : InMemoryMailer :=
  { baseMailer := smtpPlainM, queueCap := 1, workerCount := 2
    running := true, buffer := [someJob] }

/-- A never-started (or already stopped) HTTP-backed queue. -/
def stoppedQueueH : HttpInMemoryMailer :=
  { baseMailer := httpM, queueCap := 2, workerCount := 2
    running := false, buffer := [] }

/-- A running HTTP-backed queue with room in the buffer. -/
def runningQueueH : HttpInMemoryMailer :=
  { baseMailer := httpM, queueCap := 2, workerCount := 2
    running := true, buffer := [] }

/-- A running HTTP-backed queue whose buffer is at capacity. -/
def fullQueueH : HttpInMemoryMailer :=
  { baseMailer := httpM, queueCap := 1, workerCount := 2
    running := true, buffer := [someJob] }

/-! # Theorems

## Generic behaviour of the retry loop -/

/-- If attempt `j` is the first successful one and the loop starts at
`a ≤ j ≤ maxRetries`, it succeeds after `j - a + 1` invocations with a
sleep after every failed one. -/
lemma retryLoopAux_success (net : Net) (R : Nat) :
    ∀ (fuel a j : Nat) (lastErr : String),
      a + fuel = R + 1 → 1 ≤ a → a ≤ j → j ≤ R → net j = none →
      (∀ k, a ≤ k → k < j → (net k).isSome) →
      retryLoopAux net R fuel a lastErr = (.ok (), j - a + 1, j - a) := by
  intro fuel
  induction fuel with
  | zero =>
    intro a j lastErr hfa ha haj hjR hj hfails
    omega
  | succ fuel ih =>
    intro a j lastErr hfa ha haj hjR hj hfails
    rcases eq_or_lt_of_le haj with heq | hlt
    · subst heq
      simp [retryLoopAux, hj]
    · obtain ⟨e, he⟩ := Option.isSome_iff_exists.mp (hfails a le_rfl hlt)
      have haR : a < R := lt_of_lt_of_le hlt hjR
      have hrec := ih (a + 1) j e (by omega) (by omega) (by omega) hjR hj
        (fun k hk1 hk2 => hfails k (by omega) hk2)
      simp [retryLoopAux, he, haR, hrec, Prod.ext_iff]
      omega

/-- If every attempt from `a` to `maxRetries` fails, the loop exhausts
all of them, sleeps after every attempt but the last, and ends with the
last failure. -/
lemma retryLoopAux_fail (net : Net) (R : Nat) :
    ∀ (fuel a : Nat) (lastErr e : String),
      a + fuel = R + 1 → 1 ≤ a → a ≤ R →
      (∀ k, a ≤ k → k ≤ R → (net k).isSome) → net R = some e →
      retryLoopAux net R fuel a lastErr = (.error e, R - a + 1, R - a) := by
  intro fuel
  induction fuel with
  | zero =>
    intro a lastErr e hfa ha haR hfails hR
    omega
  | succ fuel ih =>
    intro a lastErr e hfa ha haR hfails hR
    rcases eq_or_lt_of_le haR with heq | hlt
    · subst heq
      simp [retryLoopAux, hR]
    · obtain ⟨f, hf⟩ := Option.isSome_iff_exists.mp (hfails a le_rfl hlt.le)
      have hrec := ih (a + 1) f e (by omega) (by omega) (by omega)
        (fun k hk1 hk2 => hfails k (by omega) hk2) hR
      simp [retryLoopAux, hf, hlt, hrec, Prod.ext_iff]
      omega

/-- `retryLoop` on a net whose first success is attempt
`j ≤ maxRetries`: success, `j` attempts, `j - 1` sleeps. -/
lemma retryLoop_success (net : Net) (R j : Nat) (h1 : 1 ≤ j) (h2 : j ≤ R)
    (h3 : net j = none) (h4 : ∀ k, 1 ≤ k → k < j → (net k).isSome) :
    retryLoop net R = (.ok (), j, j - 1) := by
  have h := retryLoopAux_success net R R 1 j "" (by omega) le_rfl h1 h2 h3 h4
  rw [retryLoop, h]
  rw [show j - 1 + 1 = j by omega]

/-- `retryLoop` on a net that fails every attempt up to `maxRetries`:
exhaustion with the last failure, `maxRetries` attempts,
`maxRetries - 1` sleeps. -/
lemma retryLoop_fail (net : Net) (R : Nat) (e : String) (h1 : 1 ≤ R)
    (h2 : ∀ k, 1 ≤ k → k ≤ R → (net k).isSome) (h3 : net R = some e) :
    retryLoop net R = (.error e, R, R - 1) := by
  have h := retryLoopAux_fail net R R 1 "" e (by omega) le_rfl h1 h2 h3
  rw [retryLoop, h]
  rw [show R - 1 + 1 = R by omega]

/-! ## Reduction of the three transports on a rendering template -/

/-- `HttpMailer.SendWithOptions`, non-sandbox, rendering template:
everything is determined by the retry loop. -/
lemma httpSend_reduce (m : HttpMailer) (bodyStr : String)
    (ts : Except String String) (username subject : String) (net : Net) :
    m.SendWithOptions (.ok ⟨.ok bodyStr, ts⟩) username subject false net =
      { result :=
          match (retryLoop net m.maxRetries).1 with
          | .ok _ => .ok ()
          | .error e =>
            .error ("failed to send email via HTTP after " ++
                    toString m.maxRetries ++ " attempts: " ++ e)
        subjectUsed := some (deriveSubject ⟨.ok bodyStr, ts⟩ username subject)
        attempts := (retryLoop net m.maxRetries).2.1
        sleeps := (retryLoop net m.maxRetries).2.2 } := rfl

/-- Retry/TLS `SmtpMailer.Send`, non-sandbox, rendering template. -/
lemma smtpRetrySend_reduce (m : SmtpRetryMailer) (bodyStr : String)
    (ts : Except String String) (username subject : String) (net : Net) :
    m.Send (.ok ⟨.ok bodyStr, ts⟩) username subject false net =
      { result :=
          match (retryLoop net m.maxRetries).1 with
          | .ok _ => .ok ()
          | .error e =>
            .error ("failed to send email after " ++
                    toString m.maxRetries ++ " attempts: " ++ e)
        subjectUsed := some (deriveSubject ⟨.ok bodyStr, ts⟩ username subject)
        attempts := (retryLoop net m.maxRetries).2.1
        sleeps := (retryLoop net m.maxRetries).2.2 } := rfl

/-- Plain `SmtpMailer.Send` (`smtp.go`), non-sandbox, rendering template,
failing `smtp.SendMail`: a single attempt, no sleep, single wrapped
error. -/
lemma smtpPlainSend_fail (m : SmtpMailer) (bodyStr : String)
    (ts : Except String String) (username subject : String) (net : Net)
    (e : String) (h : net 1 = some e) :
    m.Send (.ok ⟨.ok bodyStr, ts⟩) username subject false net =
      { result := .error ("failed to send email: " ++ e)
        subjectUsed := some (deriveSubject ⟨.ok bodyStr, ts⟩ username subject)
        attempts := 1, sleeps := 0 } := by
  simp [SmtpMailer.Send, h]

/-- Plain `SmtpMailer.Send` (`smtp.go`), non-sandbox, rendering template,
successful `smtp.SendMail`. -/
lemma smtpPlainSend_ok (m : SmtpMailer) (bodyStr : String)
    (ts : Except String String) (username subject : String) (net : Net)
    (h : net 1 = none) :
    m.Send (.ok ⟨.ok bodyStr, ts⟩) username subject false net =
      { result := .ok ()
        subjectUsed := some (deriveSubject ⟨.ok bodyStr, ts⟩ username subject)
        attempts := 1, sleeps := 0 } := by
  simp [SmtpMailer.Send, h]

/-! ## Claim C1 -/

/-- Claim C1 (corrected).  For every non-sandbox delivery whose template
renders successfully, `HttpMailer.SendWithOptions` and the retry/TLS
`SmtpMailer.Send` attempt delivery up to `maxRetries` times, sleep
`retryDelay` once after each failed attempt except the last, return
success on the first successful attempt, and after exhausting all
`maxRetries` attempts return the aggregate error wrapping the last
underlying failure.  The `SmtpMailer.Send` of `internal/mailer/smtp.go`
instead performs exactly one delivery attempt, never sleeps, and wraps
that single failure. -/
theorem claimC1_retry_contract (mh : HttpMailer) (ms : SmtpRetryMailer)
    (mp : SmtpMailer) (bodyStr : String) (ts : Except String String)
    (username subject : String) (net : Net) :
    (∀ j, 1 ≤ j → j ≤ mh.maxRetries → net j = none →
       (∀ k, 1 ≤ k → k < j → (net k).isSome) →
       mh.SendWithOptions (.ok ⟨.ok bodyStr, ts⟩) username subject false net =
         { result := .ok ()
           subjectUsed := some (deriveSubject ⟨.ok bodyStr, ts⟩ username subject)
           attempts := j, sleeps := j - 1 }) ∧
    (∀ e, 1 ≤ mh.maxRetries →
       (∀ k, 1 ≤ k → k ≤ mh.maxRetries → (net k).isSome) →
       net mh.maxRetries = some e →
       mh.SendWithOptions (.ok ⟨.ok bodyStr, ts⟩) username subject false net =
         { result := .error ("failed to send email via HTTP after " ++
                             toString mh.maxRetries ++ " attempts: " ++ e)
           subjectUsed := some (deriveSubject ⟨.ok bodyStr, ts⟩ username subject)
           attempts := mh.maxRetries, sleeps := mh.maxRetries - 1 }) ∧
    (∀ j, 1 ≤ j → j ≤ ms.maxRetries → net j = none →
       (∀ k, 1 ≤ k → k < j → (net k).isSome) →
       ms.Send (.ok ⟨.ok bodyStr, ts⟩) username subject false net =
         { result := .ok ()
           subjectUsed := some (deriveSubject ⟨.ok bodyStr, ts⟩ username subject)
           attempts := j, sleeps := j - 1 }) ∧
    (∀ e, 1 ≤ ms.maxRetries →
       (∀ k, 1 ≤ k → k ≤ ms.maxRetries → (net k).isSome) →
       net ms.maxRetries = some e →
       ms.Send (.ok ⟨.ok bodyStr, ts⟩) username subject false net =
         { result := .error ("failed to send email after " ++
                             toString ms.maxRetries ++ " attempts: " ++ e)
           subjectUsed := some (deriveSubject ⟨.ok bodyStr, ts⟩ username subject)
           attempts := ms.maxRetries, sleeps := ms.maxRetries - 1 }) ∧
    (∀ e, net 1 = some e →
       mp.Send (.ok ⟨.ok bodyStr, ts⟩) username subject false net =
         { result := .error ("failed to send email: " ++ e)
           subjectUsed := some (deriveSubject ⟨.ok bodyStr, ts⟩ username subject)
           attempts := 1, sleeps := 0 }) := by
  refine ⟨?_, ?_, ?_, ?_, ?_⟩
  · intro j h1 h2 h3 h4
    rw [httpSend_reduce, retryLoop_success net mh.maxRetries j h1 h2 h3 h4]
  · intro e h1 h2 h3
    rw [httpSend_reduce, retryLoop_fail net mh.maxRetries e h1 h2 h3]
  · intro j h1 h2 h3 h4
    rw [smtpRetrySend_reduce, retryLoop_success net ms.maxRetries j h1 h2 h3 h4]
  · intro e h1 h2 h3
    rw [smtpRetrySend_reduce, retryLoop_fail net ms.maxRetries e h1 h2 h3]
  · intro e h
    exact smtpPlainSend_fail mp bodyStr ts username subject net e h

/-- Claim C1, witness: `httpM` (3 retries) with a network failing once
then succeeding delivers with 2 attempts and 1 sleep. -/
theorem claimC1_retry_contract_witness :
    httpM.SendWithOptions (.ok bodyOnlyTmpl) "ada" "Hi" false failOnceNet =
      { result := .ok (), subjectUsed := some "Hi", attempts := 2, sleeps := 1 } :=
  (claimC1_retry_contract httpM smtpRetryM smtpPlainM "<h1>Welcome</h1>"
    (.error "no subject block") "ada" "Hi" failOnceNet).1 2 (by omega)
    (by decide) rfl
    (fun k hk1 hk2 => by
      have hk : k = 1 := by omega
      subst hk
      rfl)

/-- Claim C1, counterexample to the claim as stated: on a network that
refuses the first attempt and would succeed on the second, the
`SmtpMailer.Send` of `internal/mailer/smtp.go` gives up after one
attempt with no sleep, while the retry/TLS `SmtpMailer.Send` (as the
claim demands of every Transport implementation) succeeds on the second
attempt. -/
theorem claimC1_counterexample :
    (smtpPlainM.Send (.ok bodyOnlyTmpl) "ada" "Hi" false failOnceNet).result =
      .error "failed to send email: connection refused" ∧
    (smtpPlainM.Send (.ok bodyOnlyTmpl) "ada" "Hi" false failOnceNet).attempts = 1 ∧
    (smtpPlainM.Send (.ok bodyOnlyTmpl) "ada" "Hi" false failOnceNet).sleeps = 0 ∧
    (smtpRetryM.Send (.ok bodyOnlyTmpl) "ada" "Hi" false failOnceNet).result = .ok () ∧
    (smtpRetryM.Send (.ok bodyOnlyTmpl) "ada" "Hi" false failOnceNet).attempts = 2 ∧
    (smtpRetryM.Send (.ok bodyOnlyTmpl) "ada" "Hi" false failOnceNet).sleeps = 1 :=
  ⟨rfl, rfl, rfl, rfl, rfl, rfl⟩

/-! ## Claim C4 -/

/-- Claim C4 (confirmed).  For every delivery call with `sandbox = true`
whose template renders successfully, each of the three transports returns
success with zero network-primitive invocations and zero sleeps — for
every network oracle, so the network branch is unreachable — and the
subject has already been derived.  Moreover the short-circuit sits after
rendering: with `sandbox = true` and a failing template the call still
returns the rendering error (with zero invocations). -/
theorem claimC4_sandbox_no_network (mh : HttpMailer) (ms : SmtpRetryMailer)
    (mp : SmtpMailer) (bodyStr : String) (ts : Except String String)
    (username subject : String) (net : Net) :
    (mh.SendWithOptions (.ok ⟨.ok bodyStr, ts⟩) username subject true net =
      { result := .ok ()
        subjectUsed := some (deriveSubject ⟨.ok bodyStr, ts⟩ username subject)
        attempts := 0, sleeps := 0 }) ∧
    (ms.Send (.ok ⟨.ok bodyStr, ts⟩) username subject true net =
      { result := .ok ()
        subjectUsed := some (deriveSubject ⟨.ok bodyStr, ts⟩ username subject)
        attempts := 0, sleeps := 0 }) ∧
    (mp.Send (.ok ⟨.ok bodyStr, ts⟩) username subject true net =
      { result := .ok ()
        subjectUsed := some (deriveSubject ⟨.ok bodyStr, ts⟩ username subject)
        attempts := 0, sleeps := 0 }) ∧
    (∀ e, mh.SendWithOptions (.error e) username subject true net =
      { result := .error ("error parsing template from FS: " ++ e)
        subjectUsed := none, attempts := 0, sleeps := 0 }) ∧
    (∀ e, ms.Send (.error e) username subject true net =
      { result := .error ("error parsing template from FS: " ++ e)
        subjectUsed := none, attempts := 0, sleeps := 0 }) ∧
    (∀ e, mp.Send (.error e) username subject true net =
      { result := .error ("error parsing template from FS: " ++ e)
        subjectUsed := none, attempts := 0, sleeps := 0 }) :=
  ⟨rfl, rfl, rfl, fun _ => rfl, fun _ => rfl, fun _ => rfl⟩

/-! ## Claim C7 -/

/-- Claim C7 (confirmed).  All three transports stamp the message with
`deriveSubject`; and `deriveSubject` uses the caller's subject unchanged
when non-empty, else the whitespace-trimmed rendered subject block when
the template has one, else the generic `"Message for {username}"`. -/
theorem claimC7_subject_derivation (mh : HttpMailer) (ms : SmtpRetryMailer)
    (mp : SmtpMailer) (t : Tmpl) (bodyStr : String) (hbody : t.body = .ok bodyStr)
    (username subject : String) (isSandBox : Bool) (net : Net) :
    ((mh.SendWithOptions (.ok t) username subject isSandBox net).subjectUsed =
       some (deriveSubject t username subject) ∧
     (ms.Send (.ok t) username subject isSandBox net).subjectUsed =
       some (deriveSubject t username subject) ∧
     (mp.Send (.ok t) username subject isSandBox net).subjectUsed =
       some (deriveSubject t username subject)) ∧
    (subject ≠ "" → deriveSubject t username subject = subject) ∧
    (∀ s, subject = "" → t.subject = .ok s →
       deriveSubject t username subject = s.trim) ∧
    (∀ e, subject = "" → t.subject = .error e →
       deriveSubject t username subject = "Message for " ++ username) := by
  obtain ⟨tb, tsub⟩ := t
  have hb : tb = Except.ok bodyStr := hbody
  subst hb
  refine ⟨⟨?_, ?_, ?_⟩, ?_, ?_, ?_⟩
  · cases isSandBox <;> rfl
  · cases isSandBox <;> rfl
  · cases isSandBox with
    | true => rfl
    | false => cases h : net 1 <;> simp [SmtpMailer.Send, h]
  · intro h
    simp [deriveSubject, h]
  · intro s h1 h2
    have hs : tsub = Except.ok s := h2
    subst h1
    subst hs
    simp [deriveSubject]
  · intro e h1 h2
    have hs : tsub = Except.error e := h2
    subst h1
    subst hs
    simp [deriveSubject]

/-- Claim C7, witness: with an empty caller subject, the template's
rendered subject block is trimmed and used; without a subject block the
generic fallback is used; a non-empty caller subject is kept. -/
theorem claimC7_subject_derivation_witness :
    (httpM.SendWithOptions (.ok subjTmpl) "ada" "" false failOnceNet).subjectUsed =
      some (deriveSubject subjTmpl "ada" "") ∧
    deriveSubject subjTmpl "ada" "" = "  Welcome to Sandbox  ".trim ∧
    deriveSubject bodyOnlyTmpl "ada" "" = "Message for " ++ "ada" ∧
    deriveSubject subjTmpl "ada" "Hi" = "Hi" :=
  ⟨((claimC7_subject_derivation httpM smtpRetryM smtpPlainM subjTmpl
      "<h1>Welcome</h1>" rfl "ada" "" false failOnceNet).1).1,
   (claimC7_subject_derivation httpM smtpRetryM smtpPlainM subjTmpl
      "<h1>Welcome</h1>" rfl "ada" "" false failOnceNet).2.2.1
     "  Welcome to Sandbox  " rfl rfl,
   (claimC7_subject_derivation httpM smtpRetryM smtpPlainM bodyOnlyTmpl
      "<h1>Welcome</h1>" rfl "ada" "" false failOnceNet).2.2.2
     "no subject block" rfl rfl,
   (claimC7_subject_derivation httpM smtpRetryM smtpPlainM subjTmpl
      "<h1>Welcome</h1>" rfl "ada" "Hi" false failOnceNet).2.1 (by decide)⟩

/-! ## Claim C8 -/

/-- Claim C8 (confirmed).  A template-parse failure or a body-execution
failure makes every transport return the rendering error at once: zero
delivery attempts, zero sleeps, in both the SMTP transports and the
HTTP-API transport, sandbox or not. -/
theorem claimC8_render_failure_fatal (mh : HttpMailer) (ms : SmtpRetryMailer)
    (mp : SmtpMailer) (username subject : String) (isSandBox : Bool)
    (net : Net) (e : String) :
    (mh.SendWithOptions (.error e) username subject isSandBox net =
      { result := .error ("error parsing template from FS: " ++ e)
        subjectUsed := none, attempts := 0, sleeps := 0 }) ∧
    (ms.Send (.error e) username subject isSandBox net =
      { result := .error ("error parsing template from FS: " ++ e)
        subjectUsed := none, attempts := 0, sleeps := 0 }) ∧
    (mp.Send (.error e) username subject isSandBox net =
      { result := .error ("error parsing template from FS: " ++ e)
        subjectUsed := none, attempts := 0, sleeps := 0 }) ∧
    (∀ ts, mh.SendWithOptions (.ok ⟨.error e, ts⟩) username subject isSandBox net =
      { result := .error ("error executing template: " ++ e)
        subjectUsed := none, attempts := 0, sleeps := 0 }) ∧
    (∀ ts, ms.Send (.ok ⟨.error e, ts⟩) username subject isSandBox net =
      { result := .error ("error executing template: " ++ e)
        subjectUsed := none, attempts := 0, sleeps := 0 }) ∧
    (∀ ts, mp.Send (.ok ⟨.error e, ts⟩) username subject isSandBox net =
      { result := .error ("error executing template: " ++ e)
        subjectUsed := none, attempts := 0, sleeps := 0 }) :=
  ⟨rfl, rfl, rfl, fun _ => rfl, fun _ => rfl, fun _ => rfl⟩

/-! ## Claim C6 -/

/-- Claim C6 (confirmed).  Response handling of the HTTP-API transport:
2xx with provider `success` is success; unparseable body with 2xx is
success; any other case is an error built from the provider `error`
field, falling back to `message`, then to the raw status code and body;
an unparseable body with non-2xx status reports the parse failure with
the raw status and body. -/
theorem claimC6_response_handling (status : Nat) (body : String)
    (p : PlunkResponse) (e : String) :
    (200 ≤ status → status < 300 → p.success = true →
       handleResponse status body (.ok p) = .ok ()) ∧
    (200 ≤ status → status < 300 →
       handleResponse status body (.error e) = .ok ()) ∧
    (¬(200 ≤ status ∧ status < 300) →
       handleResponse status body (.error e) =
         .error ("failed to parse response (status: " ++ toString status ++
                 "): " ++ e ++ ", body: " ++ body)) ∧
    ((¬(200 ≤ status ∧ status < 300) ∨ p.success = false) → p.error ≠ "" →
       handleResponse status body (.ok p) =
         .error ("API request failed: " ++ p.error)) ∧
    ((¬(200 ≤ status ∧ status < 300) ∨ p.success = false) →
       p.error = "" → p.message ≠ "" →
       handleResponse status body (.ok p) =
         .error ("API request failed: " ++ p.message)) ∧
    ((¬(200 ≤ status ∧ status < 300) ∨ p.success = false) →
       p.error = "" → p.message = "" →
       handleResponse status body (.ok p) =
         .error ("API request failed: " ++
                 ("HTTP " ++ toString status ++ ": " ++ body))) := by
  have hcond : ∀ hna : ¬(200 ≤ status ∧ status < 300) ∨ p.success = false,
      ¬((200 ≤ status ∧ status < 300) ∧ p.success = true) := by
    intro hna hc
    rcases hna with h | h
    · exact h hc.1
    · rw [hc.2] at h
      cases h
  refine ⟨?_, ?_, ?_, ?_, ?_, ?_⟩
  · intro h1 h2 h3
    simp [handleResponse, h1, h2, h3]
  · intro h1 h2
    simp [handleResponse, h1, h2]
  · intro h
    simp [handleResponse, h]
  · intro hna hp
    simp [handleResponse, hcond hna, hp]
  · intro hna hp hq
    simp [handleResponse, hcond hna, hp, hq]
  · intro hna hp hq
    simp [handleResponse, hcond hna, hp, hq]

/-- Claim C6, witness: a 2xx success response, a non-2xx unparseable
response, and a non-2xx response carrying a structured `error` field,
evaluated concretely. -/
theorem claimC6_response_handling_witness :
    handleResponse 200 "{}"
      (.ok { success := true, timestamp := "", emails := "", message := ""
             error := "" }) = .ok () ∧
    handleResponse 500 "oops" (.error "invalid json") =
      .error "failed to parse response (status: 500): invalid json, body: oops" ∧
    handleResponse 401 "b"
      (.ok { success := false, timestamp := "", emails := ""
             message := "no account", error := "invalid api key" }) =
      .error "API request failed: invalid api key" :=
  ⟨(claimC6_response_handling 200 "{}"
      { success := true, timestamp := "", emails := "", message := ""
        error := "" } "x").1 (by omega) (by omega) rfl,
   (claimC6_response_handling 500 "oops"
      { success := true, timestamp := "", emails := "", message := ""
        error := "" } "invalid json").2.2.1 (by omega),
   (claimC6_response_handling 401 "b"
      { success := false, timestamp := "", emails := ""
        message := "no account", error := "invalid api key" } "x").2.2.2.1
     (Or.inr rfl) (by decide)⟩

/-! ## Claim C3 -/

/-- Claim C3 (confirmed).  `Enqueue` on a queue that is not running
returns `ErrQueueNotRunning` whatever the buffer occupancy; on a running
queue whose buffer is full and where the push cannot complete within the
wait window it returns `ErrQueueFull`; otherwise the job is accepted and
`Enqueue` succeeds — in both the SMTP-backed and HTTP-backed queues. -/
theorem claimC3_enqueue_outcomes (m : InMemoryMailer) (hm : HttpInMemoryMailer)
    (job : MailJob) (w : Bool) :
    (m.running = false → m.Enqueue job w = .error .ErrQueueNotRunning) ∧
    (m.running = true → m.queueCap ≤ (m.buffer.length : Int) → w = false →
       m.Enqueue job w = .error .ErrQueueFull) ∧
    (m.running = true → ((m.buffer.length : Int) < m.queueCap ∨ w = true) →
       ∃ buf, m.Enqueue job w = .ok buf) ∧
    (hm.running = false → hm.Enqueue job w = .error .ErrQueueNotRunning) ∧
    (hm.running = true → hm.queueCap ≤ (hm.buffer.length : Int) → w = false →
       hm.Enqueue job w = .error .ErrQueueFull) ∧
    (hm.running = true → ((hm.buffer.length : Int) < hm.queueCap ∨ w = true) →
       ∃ buf, hm.Enqueue job w = .ok buf) := by
  refine ⟨?_, ?_, ?_, ?_, ?_, ?_⟩
  · intro h
    simp [InMemoryMailer.Enqueue, h]
  · intro h1 h2 h3
    simp [InMemoryMailer.Enqueue, h1, h3, not_lt.mpr h2]
  · intro h1 h2
    rcases h2 with h | h
    · refine ⟨m.buffer ++ [job], ?_⟩
      simp [InMemoryMailer.Enqueue, h1, h]
    · by_cases hlt : (m.buffer.length : Int) < m.queueCap
      · refine ⟨m.buffer ++ [job], ?_⟩
        simp [InMemoryMailer.Enqueue, h1, hlt]
      · refine ⟨m.buffer, ?_⟩
        simp [InMemoryMailer.Enqueue, h1, hlt, h]
  · intro h
    simp [HttpInMemoryMailer.Enqueue, h]
  · intro h1 h2 h3
    simp [HttpInMemoryMailer.Enqueue, h1, h3, not_lt.mpr h2]
  · intro h1 h2
    rcases h2 with h | h
    · refine ⟨hm.buffer ++ [job], ?_⟩
      simp [HttpInMemoryMailer.Enqueue, h1, h]
    · by_cases hlt : (hm.buffer.length : Int) < hm.queueCap
      · refine ⟨hm.buffer ++ [job], ?_⟩
        simp [HttpInMemoryMailer.Enqueue, h1, hlt]
      · refine ⟨hm.buffer, ?_⟩
        simp [HttpInMemoryMailer.Enqueue, h1, hlt, h]

/-- Claim C3, witness: a stopped queue rejects with `ErrQueueNotRunning`,
a full one (no receive within the window) with `ErrQueueFull`, a running
one with room accepts, on both queue flavours. -/
theorem claimC3_enqueue_outcomes_witness :
    stoppedQueueM.Enqueue someJob true = .error .ErrQueueNotRunning ∧
    fullQueueM.Enqueue someJob false = .error .ErrQueueFull ∧
    (∃ buf, runningQueueM.Enqueue someJob false = .ok buf) ∧
    stoppedQueueH.Enqueue someJob true = .error .ErrQueueNotRunning ∧
    fullQueueH.Enqueue someJob false = .error .ErrQueueFull ∧
    (∃ buf, runningQueueH.Enqueue someJob false = .ok buf) :=
  ⟨(claimC3_enqueue_outcomes stoppedQueueM stoppedQueueH someJob true).1 rfl,
   (claimC3_enqueue_outcomes fullQueueM fullQueueH someJob false).2.1 rfl
     (by decide) rfl,
   (claimC3_enqueue_outcomes runningQueueM runningQueueH someJob false).2.2.1 rfl
     (Or.inl (by decide)),
   (claimC3_enqueue_outcomes stoppedQueueM stoppedQueueH someJob true).2.2.2.1 rfl,
   (claimC3_enqueue_outcomes fullQueueM fullQueueH someJob false).2.2.2.2.1 rfl
     (by decide) rfl,
   (claimC3_enqueue_outcomes runningQueueM runningQueueH someJob false).2.2.2.2.2
     rfl (Or.inl (by decide))⟩

/-! ## Claim C5 -/

/-- Claim C5 (confirmed).  `SendWithOptions` with `deliveryMode = sync`
bypasses the queue, returning exactly the base Transport's result (the
buffer untouched); with any other `deliveryMode` it builds the `Job` and
returns exactly the `Enqueue` outcome, which does not depend on the
template/network oracles (never the eventual delivery result); and
`Send` always takes the enqueue path — on both queue flavours. -/
theorem claimC5_delivery_modes (m : InMemoryMailer) (hm : HttpInMemoryMailer)
    (tp tp2 : TmplParse) (net net2 : Net)
    (templateFile username email subject data deliveryMode : String)
    (isSandBox w : Bool) :
    (deliveryMode = SyncDelivery →
       ((m.baseMailer.Send tp username subject isSandBox net).result = .ok () →
          m.SendWithOptions tp net templateFile username email subject data
            deliveryMode isSandBox w = .ok m.buffer) ∧
       (∀ e,
          (m.baseMailer.Send tp username subject isSandBox net).result = .error e →
          m.SendWithOptions tp net templateFile username email subject data
            deliveryMode isSandBox w = .error (.deliveryFailure e))) ∧
    (deliveryMode ≠ SyncDelivery →
       m.SendWithOptions tp net templateFile username email subject data
           deliveryMode isSandBox w =
         m.Enqueue (mkMailJob templateFile username email subject data isSandBox)
           w ∧
       m.SendWithOptions tp net templateFile username email subject data
           deliveryMode isSandBox w =
         m.SendWithOptions tp2 net2 templateFile username email subject data
           deliveryMode isSandBox w) ∧
    (m.Send templateFile username email subject data isSandBox w =
       m.Enqueue (mkMailJob templateFile username email subject data isSandBox)
         w) ∧
    (deliveryMode = SyncDelivery →
       ((hm.baseMailer.SendWithOptions tp username subject isSandBox net).result
            = .ok () →
          hm.SendWithOptions tp net templateFile username email subject data
            deliveryMode isSandBox w = .ok hm.buffer) ∧
       (∀ e,
          (hm.baseMailer.SendWithOptions tp username subject isSandBox net).result
            = .error e →
          hm.SendWithOptions tp net templateFile username email subject data
            deliveryMode isSandBox w = .error (.deliveryFailure e))) ∧
    (deliveryMode ≠ SyncDelivery →
       hm.SendWithOptions tp net templateFile username email subject data
           deliveryMode isSandBox w =
         hm.Enqueue (mkMailJob templateFile username email subject data isSandBox)
           w ∧
       hm.SendWithOptions tp net templateFile username email subject data
           deliveryMode isSandBox w =
         hm.SendWithOptions tp2 net2 templateFile username email subject data
           deliveryMode isSandBox w) ∧
    (hm.Send templateFile username email subject data isSandBox w =
       hm.Enqueue (mkMailJob templateFile username email subject data isSandBox)
         w) := by
  refine ⟨?_, ?_, rfl, ?_, ?_, rfl⟩
  · intro h
    subst h
    constructor
    · intro hres
      simp [InMemoryMailer.SendWithOptions, hres]
    · intro e hres
      simp [InMemoryMailer.SendWithOptions, hres]
  · intro h
    exact ⟨by simp [InMemoryMailer.SendWithOptions, InMemoryMailer.Send, h],
           by simp [InMemoryMailer.SendWithOptions, InMemoryMailer.Send, h]⟩
  · intro h
    subst h
    constructor
    · intro hres
      simp [HttpInMemoryMailer.SendWithOptions, hres]
    · intro e hres
      simp [HttpInMemoryMailer.SendWithOptions, hres]
  · intro h
    exact ⟨by simp [HttpInMemoryMailer.SendWithOptions, HttpInMemoryMailer.Send, h],
           by simp [HttpInMemoryMailer.SendWithOptions, HttpInMemoryMailer.Send, h]⟩

/-- Claim C5, witness: on a stopped queue, a synchronous sandbox call
still succeeds (bypassing the queue), while the same call in
`async_memory` mode returns the enqueue rejection. -/
theorem claimC5_delivery_modes_witness :
    stoppedQueueM.SendWithOptions (.ok bodyOnlyTmpl) failOnceNet
      "welcome_mail.tmpl" "ada" "ada@example.com" "Hi" "{}" SyncDelivery true
      false = .ok [] ∧
    stoppedQueueM.SendWithOptions (.ok bodyOnlyTmpl) failOnceNet
      "welcome_mail.tmpl" "ada" "ada@example.com" "Hi" "{}" AsyncInMemory true
      false = .error .ErrQueueNotRunning :=
  ⟨((claimC5_delivery_modes stoppedQueueM stoppedQueueH (.ok bodyOnlyTmpl)
      (.ok bodyOnlyTmpl) failOnceNet failOnceNet "welcome_mail.tmpl" "ada"
      "ada@example.com" "Hi" "{}" SyncDelivery true false).1 rfl).1 rfl,
   (((claimC5_delivery_modes stoppedQueueM stoppedQueueH (.ok bodyOnlyTmpl)
      (.ok bodyOnlyTmpl) failOnceNet failOnceNet "welcome_mail.tmpl" "ada"
      "ada@example.com" "Hi" "{}" AsyncInMemory true false).2.1
      (by decide)).1).trans rfl⟩

/-! ## Claim C9 -/

/-- Claim C9 (confirmed).  A worker processes every job of the sequence
it pulls, in order, whatever each delivery's outcome: a failed job is
followed by the next one (the loop body recurses after a `.error` just
as after an `.ok`), and the loop ends exactly when the sequence — the
channel's items until it is closed and drained — is exhausted. -/
theorem claimC9_worker_never_stops (base : MailJob → Except String Unit)
    (jobs : List MailJob) :
    (workerRun base jobs).map Prod.fst = jobs ∧
    (workerRun base jobs).length = jobs.length ∧
    (∀ job rest, workerRun base (job :: rest) =
       (job, base job) :: workerRun base rest) ∧
    workerRun base [] = [] := by
  refine ⟨?_, ?_, ?_, rfl⟩
  · induction jobs with
    | nil => rfl
    | cons j rest ih => cases h : base j <;> simp [workerRun, h, ih]
  · induction jobs with
    | nil => rfl
    | cons j rest ih => cases h : base j <;> simp [workerRun, h, ih]
  · intro job rest
    cases h : base job <;> simp [workerRun, h]

/-! ## Claim C10 -/

/-- Claim C10 (confirmed).  Both in-memory constructors substitute the
default 2 for a non-positive `workerCount` and the default 100 for a
non-positive `queueSize`, and keep positive arguments unchanged. -/
theorem claimC10_constructor_defaults (base : SmtpMailer) (hbase : HttpMailer)
    (wc qs : Int) :
    ((wc ≤ 0 → (NewInMemoryMailer base wc qs).workerCount = 2) ∧
     (0 < wc → (NewInMemoryMailer base wc qs).workerCount = wc) ∧
     (qs ≤ 0 → (NewInMemoryMailer base wc qs).queueCap = 100) ∧
     (0 < qs → (NewInMemoryMailer base wc qs).queueCap = qs)) ∧
    ((wc ≤ 0 → (NewHttpInMemoryMailer hbase wc qs).workerCount = 2) ∧
     (0 < wc → (NewHttpInMemoryMailer hbase wc qs).workerCount = wc) ∧
     (qs ≤ 0 → (NewHttpInMemoryMailer hbase wc qs).queueCap = 100) ∧
     (0 < qs → (NewHttpInMemoryMailer hbase wc qs).queueCap = qs)) := by
  refine ⟨⟨?_, ?_, ?_, ?_⟩, ⟨?_, ?_, ?_, ?_⟩⟩ <;> intro h
  · simp [NewInMemoryMailer, h]
  · simp [NewInMemoryMailer, not_le.mpr h]
  · simp [NewInMemoryMailer, h]
  · simp [NewInMemoryMailer, not_le.mpr h]
  · simp [NewHttpInMemoryMailer, h]
  · simp [NewHttpInMemoryMailer, not_le.mpr h]
  · simp [NewHttpInMemoryMailer, h]
  · simp [NewHttpInMemoryMailer, not_le.mpr h]

/-- Claim C10, witness: `workerCount = -1` and `queueSize = 0` default to
2 and 100; `workerCount = 4` and `queueSize = 7` are kept. -/
theorem claimC10_constructor_defaults_witness :
    (NewInMemoryMailer smtpPlainM (-1) 0).workerCount = 2 ∧
    (NewInMemoryMailer smtpPlainM (-1) 0).queueCap = 100 ∧
    (NewInMemoryMailer smtpPlainM 4 7).workerCount = 4 ∧
    (NewInMemoryMailer smtpPlainM 4 7).queueCap = 7 ∧
    (NewHttpInMemoryMailer httpM (-1) 0).workerCount = 2 ∧
    (NewHttpInMemoryMailer httpM (-1) 0).queueCap = 100 ∧
    (NewHttpInMemoryMailer httpM 4 7).workerCount = 4 ∧
    (NewHttpInMemoryMailer httpM 4 7).queueCap = 7 :=
  ⟨(claimC10_constructor_defaults smtpPlainM httpM (-1) 0).1.1 (by decide),
   (claimC10_constructor_defaults smtpPlainM httpM (-1) 0).1.2.2.1 (by decide),
   (claimC10_constructor_defaults smtpPlainM httpM 4 7).1.2.1 (by decide),
   (claimC10_constructor_defaults smtpPlainM httpM 4 7).1.2.2.2 (by decide),
   (claimC10_constructor_defaults smtpPlainM httpM (-1) 0).2.1 (by decide),
   (claimC10_constructor_defaults smtpPlainM httpM (-1) 0).2.2.2.1 (by decide),
   (claimC10_constructor_defaults smtpPlainM httpM 4 7).2.2.1 (by decide),
   (claimC10_constructor_defaults smtpPlainM httpM 4 7).2.2.2.2 (by decide)⟩

/-! ## Claim C2

`Stop` holds `m.mu` from before `close(m.queue)` until after
`m.wg.Wait()` returns (the unlock is deferred), while every worker must
take `m.mu` after each `baseMailer.Send` to record `processingTime`.
Once `Stop` owns the mutex with a job still queued or in flight, the
worker that handles that job blocks at `m.mu.Lock()` forever, `wg.Wait()`
never returns, and `Stop` never returns: a deadlock.  The lemmas below
prove the deadlock invariant inductive, hence `Stop` cannot return from
`stopWaitingState` — refuting the claim that `Stop` returns after the
queued job is processed. -/

/-- The deadlock invariant holds in the state where `Stop` has acquired
the mutex with one job still buffered. -/
lemma deadInv_stopWaitingState : DeadInv stopWaitingState := by
  refine ⟨rfl, rfl, rfl, rfl, Or.inl ⟨?_, rfl⟩⟩
  simp [stopWaitingState]

/-- The deadlock invariant is preserved by every interleaving step. -/
lemma poolStep_deadInv (s s2 : PoolState) (hInv : DeadInv s)
    (hstep : PoolStep s s2) : DeadInv s2 := by
  obtain ⟨hw, hmu, hcount, hproc, hlive⟩ := hInv
  cases hstep with
  | stopLock h1 h2 h3 =>
    rw [hmu] at h2
    cases h2
  | stopNoop h1 h2 h3 =>
    rw [hmu] at h2
    cases h2
  | take j rest h1 h2 =>
    refine ⟨hw, hmu, ?_, hproc, Or.inr (Or.inl (by simp))⟩
    simp only [List.length_cons]
    omega
  | sendDone j h =>
    have hlen : s.busyW.length ≠ 0 := by
      intro h0
      rw [List.length_eq_zero] at h0
      rw [h0] at h
      cases h
    have herase : (s.busyW.erase j).length = s.busyW.length - 1 :=
      List.length_erase_of_mem h
    refine ⟨hw, hmu, ?_, hproc, Or.inr (Or.inr (by simp))⟩
    simp only [List.length_cons, herase]
    omega
  | record j h1 h2 =>
    rw [hmu] at h2
    cases h2
  | exitLoop h1 h2 h3 =>
    refine ⟨hw, hmu, by simp; omega, hproc, ?_⟩
    rcases hlive with ⟨hbuf, _⟩ | h | h
    · exact absurd h3 hbuf
    · exact Or.inr (Or.inl h)
    · exact Or.inr (Or.inr h)
  | stopReturn h1 h2 h3 h4 =>
    exfalso
    rw [h2, h3, h4] at hcount
    simp at hcount
    rcases hlive with ⟨_, hex⟩ | h | h
    · rw [hex] at hcount
      cases hcount
    · rw [h3] at h
      exact h rfl
    · rw [h4] at h
      exact h rfl

/-- The deadlock invariant holds in every state reachable from
`stopWaitingState`. -/
lemma poolReach_deadInv (s : PoolState)
    (h : PoolReach stopWaitingState s) : DeadInv s := by
  induction h with
  | refl => exact deadInv_stopWaitingState
  | tail hsteps hstep ih => exact poolStep_deadInv _ _ ih hstep

/-- Claim C2 (code bug).  From the claim's scenario — the pool running
with one idle worker and one queued job, `Stop` just called — one legal
scheduler step lets `Stop` acquire the mutex first (`stopWaitingState`);
from there no reachable state has `Stop` returned, and the queued job is
never processed either: `Stop` deadlocks instead of draining the queue
and returning, because it holds the mutex across `wg.Wait()` while the
worker needs that mutex to finish the job. -/
theorem claimC2_stop_deadlocks :
    PoolStep stopCalledState stopWaitingState ∧
    ∀ s, PoolReach stopWaitingState s →
      s.stop ≠ StopPhase.returned ∧ s.processed = [] := by
  constructor
  · exact PoolStep.stopLock stopCalledState rfl rfl rfl
  · intro s hs
    obtain ⟨hw, _, _, hproc, _⟩ := poolReach_deadInv s hs
    refine ⟨?_, hproc⟩
    rw [hw]
    intro h
    cases h

/-- Claim C2, witness: the deadlocked state itself — `Stop` has not
returned and nothing has been processed. -/
theorem claimC2_stop_deadlocks_witness :
    stopWaitingState.stop ≠ StopPhase.returned ∧
    stopWaitingState.processed = [] :=
  claimC2_stop_deadlocks.2 stopWaitingState Relation.ReflTransGen.refl

end Mailer
